import Mathlib

set_option linter.unusedVariables false
set_option linter.unnecessarySeqFocus false

/-!
Shallow embedding of the automated-trading core of the repository
(`tradingagents/automated_trading/`): the simulated broker ledger
(`broker/simulated_broker.py`), the risk manager (`risk/risk_manager.py`),
the trading scheduler's market-hours gate
(`scheduler/trading_scheduler.py`) and the controller's `manual_trade`
(`automated_trader.py`).

Conventions of the embedding:
* Python floats are modelled as `ℚ`; Python ints as `ℤ`/`ℕ`.
* Python dicts (keyed on symbol / order id) are modelled as insertion-ordered
  association lists, matching Python's dict iteration order.
* `datetime` timestamps are reduced to what the modelled code actually reads:
  an order's creation date is a `ℕ` day stamp (`created_date`), the broker
  state carries the current day (`today`), and a time of day is a `ℕ` count
  of seconds since midnight (Python `datetime.time` comparison is
  lexicographic on (h, m, s, µs), order-isomorphic to seconds/µs of day).
* A Python exception that escapes a function is modelled with `Except`;
  an exception that is raised after earlier in-place mutations keeps those
  mutations (mutation is not rolled back by `raise`).
* `RiskAlert`'s formatted `message`, `timestamp` and `suggested_action`
  fields are not modelled; the `alert_type`, `symbol` and `severity` fields,
  which the alerts are distinguished by, are kept.
-/

namespace Trading

/-- Order lifecycle states (`OrderStatus` enum, values "pending", "filled",
"partial_filled", "cancelled", "rejected"). -/
inductive OrderStatus where
  | pending
  | filled
  | partFilled
  | cancelled
  | rejected
deriving DecidableEq, Repr

/-- Buy/sell direction (`OrderSide` enum, member values "buy" / "sell"). -/
inductive OrderSide where
  | buy
  | sell
deriving DecidableEq, Repr

/-- Order kind (`OrderType` enum, member values "market", "limit", "stop",
"stop_limit"). -/
inductive OrderType where
  | market
  | limit
  | stop
  | stopLimit
deriving DecidableEq, Repr

/-- Python `str.upper()` (character-wise uppercasing; ASCII suffices for the
side/type strings of this program). -/
def pyUpper (s : String) : String := ⟨s.data.map Char.toUpper⟩

/-- Python `Enum` lookup-by-value `OrderSide(s)`: succeeds only on the
member *values*, which are the lowercase strings. -/
def OrderSide.ofValue : String → Option OrderSide
  | "buy" => some OrderSide.buy
  | "sell" => some OrderSide.sell
  | _ => none

/-- Python `Enum` lookup-by-value `OrderType(s)`: succeeds only on the
member *values*, which are the lowercase strings. -/
def OrderType.ofValue : String → Option OrderType
  | "market" => some OrderType.market
  | "limit" => some OrderType.limit
  | "stop" => some OrderType.stop
  | "stop_limit" => some OrderType.stopLimit
  | _ => none

/-- `Order` dataclass (timestamps reduced to the creation-day stamp that
`RiskManager._check_daily_order_limit` reads). -/
structure Order where
  order_id : ℕ
  symbol : String
  side : OrderSide
  order_type : OrderType
  quantity : ℤ
  price : Option ℚ
  stop_price : Option ℚ
  status : OrderStatus
  filled_quantity : ℤ
  filled_price : Option ℚ
  created_date : ℕ
deriving DecidableEq, Repr

/-- `Position` dataclass.  In the Python source `unrealized_pnl` has *no*
default value, which makes it a required constructor argument — this matters
for `_execute_buy_order` below. -/
structure Position where
  symbol : String
  quantity : ℤ
  average_price : ℚ
  current_price : ℚ
  market_value : ℚ
  unrealized_pnl : ℚ
  realized_pnl : ℚ
deriving DecidableEq, Repr

/-- The mutable state of a `SimulatedBroker` instance: the `Account` fields
the modelled code reads (`cash`, `total_value`), the commission/slippage
parameters, and the `orders` / `positions` / `price_data` dicts.  `nextId`
determinizes `uuid.uuid4()` order-id generation; `today` is the current
day used to stamp `created_date`. -/
structure Broker where
  cash : ℚ
  total_value : ℚ
  commission_per_share : ℚ
  min_commission : ℚ
  slippage : ℚ
  orders : List Order
  positions : List Position
  price_data : List (String × ℚ)
  nextId : ℕ
  today : ℕ
deriving DecidableEq, Repr

/-- Dict read `d.get(k)` on a string-keyed association list. -/
def lookupAssoc : List (String × ℚ) → String → Option ℚ
  | [], _ => none
  | (k, v) :: rest, s => if k = s then some v else lookupAssoc rest s

/-- Dict write `d[k] = v`: overwrite in place if the key exists, else append
(Python dicts keep insertion order). -/
def setAssoc : List (String × ℚ) → String → ℚ → List (String × ℚ)
  | [], s, p => [(s, p)]
  | (k, v) :: rest, s, p =>
      if k = s then (s, p) :: rest else (k, v) :: setAssoc rest s p

/-- `self.positions.get(symbol)`. -/
def findPosition : List Position → String → Option Position
  | [], _ => none
  | q :: rest, s => if q.symbol = s then some q else findPosition rest s

/-- In-place update of the position stored under `symbol` (append if absent,
matching dict assignment). -/
def setPosition : List Position → String → Position → List Position
  | [], _, p => [p]
  | q :: rest, s, p =>
      if q.symbol = s then p :: rest else q :: setPosition rest s p

/-- `del self.positions[symbol]`. -/
def removePosition : List Position → String → List Position
  | [], _ => []
  | q :: rest, s => if q.symbol = s then rest else q :: removePosition rest s

/-- `self.orders` dict read, keyed on the order id. -/
def findOrder : List Order → ℕ → Option Order
  | [], _ => none
  | o :: rest, oid => if o.order_id = oid then some o else findOrder rest oid

/-- In-place update of the (aliased) `Order` object stored under `oid`. -/
def setOrder : List Order → ℕ → Order → List Order
  | [], _, _ => []
  | o :: rest, oid, v =>
      if o.order_id = oid then v :: rest else o :: setOrder rest oid v

/-- `SimulatedBroker._get_current_price`: the externally pushed price if
present, else `None`. -/
def getCurrentPrice (b : Broker) (symbol : String) : Option ℚ :=
  lookupAssoc b.price_data symbol

/-- One iteration of the `_update_positions_value` loop body: mark the
position to the latest known price and report its market-value contribution.
Python's `if current_price:` is truthiness — a price of exactly `0.0` (or a
missing price) skips both the mark and the contribution. -/
def markPosition (b : Broker) (pos : Position) : Position × ℚ :=
  match getCurrentPrice b pos.symbol with
  | some cp =>
      if cp ≠ 0 then
        let pos' := { pos with
          current_price := cp,
          market_value := (pos.quantity : ℚ) * cp,
          unrealized_pnl := (cp - pos.average_price) * (pos.quantity : ℚ) }
        (pos', pos'.market_value)
      else (pos, 0)
  | none => (pos, 0)

/-- `SimulatedBroker._update_positions_value`: remark every position and
recompute `total_value = cash + Σ marked market values`. -/
def updatePositionsValue (b : Broker) : Broker :=
  let marked := b.positions.map (fun pos => markPosition b pos)
  { b with
    positions := marked.map Prod.fst,
    total_value := b.cash + (marked.map Prod.snd).sum }

/-- `SimulatedBroker._execute_buy_order`.  The cash debit happens first; the
new-position branch then calls `Position(...)` *omitting the required
`unrealized_pnl` argument*, which raises `TypeError` in Python — the `Bool`
result is `false` for "an exception escaped after the state changes made so
far" (the caller catches it). -/
def executeBuyOrder (b : Broker) (o : Order) (price commission : ℚ) :
    Broker × Bool :=
  let order_cost := (o.quantity : ℚ) * price + commission
  let b1 := { b with cash := b.cash - order_cost }
  match findPosition b1.positions o.symbol with
  | some position =>
      let total_quantity := position.quantity + o.quantity
      let total_cost := (position.quantity : ℚ) * position.average_price +
        (o.quantity : ℚ) * price
      let position' := { position with
        average_price := total_cost / (total_quantity : ℚ),
        quantity := total_quantity }
      ({ b1 with positions := setPosition b1.positions o.symbol position' },
        true)
  | none => (b1, false)

/-- `SimulatedBroker._execute_sell_order`: credit the proceeds, accumulate
realized P&L, decrement the held quantity, and delete the position when it
reaches zero. -/
def executeSellOrder (b : Broker) (o : Order) (price commission : ℚ) :
    Broker × Bool :=
  let sell_proceeds := (o.quantity : ℚ) * price - commission
  let b1 := { b with cash := b.cash + sell_proceeds }
  match findPosition b1.positions o.symbol with
  | some position =>
      let realized := (price - position.average_price) * (o.quantity : ℚ) -
        commission
      let position' := { position with
        realized_pnl := position.realized_pnl + realized,
        quantity := position.quantity - o.quantity }
      if position'.quantity = 0 then
        ({ b1 with positions := removePosition b1.positions o.symbol }, true)
      else
        ({ b1 with positions := setPosition b1.positions o.symbol position' },
          true)
  | none => (b1, true)

/-- The `current_position is None or current_position.quantity <
order.quantity` guard of `_execute_market_order`'s sell branch. -/
def insufficientPosition (b : Broker) (o : Order) : Bool :=
  match findPosition b.positions o.symbol with
  | none => true
  | some position => decide (position.quantity < o.quantity)

/-- `SimulatedBroker._execute_market_order`: reject when no price is known;
apply slippage and commission; reject a buy without enough cash or a sell
without enough held quantity; otherwise run the buy/sell execution inside a
`try` — an exception there is caught and the order marked rejected (the
mutations already made are kept). -/
def executeMarketOrder (b : Broker) (o : Order) : Broker × Order :=
  match getCurrentPrice b o.symbol with
  | none => (b, { o with status := OrderStatus.rejected })
  | some current_price =>
      let executed_price :=
        if o.side = OrderSide.buy then current_price * (1 + b.slippage)
        else current_price * (1 - b.slippage)
      let commission :=
        max (|(o.quantity : ℚ)| * b.commission_per_share) b.min_commission
      let order_value := (o.quantity : ℚ) * executed_price + commission
      if o.side = OrderSide.buy ∧ b.cash < order_value then
        (b, { o with status := OrderStatus.rejected })
      else if o.side = OrderSide.sell ∧ insufficientPosition b o = true then
        (b, { o with status := OrderStatus.rejected })
      else
        let run :=
          if o.side = OrderSide.buy then
            executeBuyOrder b o executed_price commission
          else executeSellOrder b o executed_price commission
        if run.2 = true then
          (run.1, { o with
            status := OrderStatus.filled,
            filled_quantity := o.quantity,
            filled_price := some executed_price })
        else (run.1, { o with status := OrderStatus.rejected })

/-- The `ValueError`s `place_order` can raise, by raise site:
the three explicit parameter validations, and the enum lookup-by-value
performed while building the `Order`. -/
inductive PlaceErr where
  | invalidQuantity
  | invalidSide
  | invalidType
  | enumValueError
deriving DecidableEq, Repr

/-- `SimulatedBroker.place_order`.  Validates `quantity`/`side`/`order_type`
against the lowercase strings, then builds the `Order` with
`OrderSide(side.upper())` / `OrderType(order_type.upper())` — lookup *by
value* with an uppercased string, while the member values are lowercase.
The lookup raises `ValueError` before the order is stored; on success the
order is stored and a market order executes synchronously. -/
def placeOrder (b : Broker) (symbol : String) (quantity : ℤ) (side : String)
    (order_type : String) (price stop_price : Option ℚ) :
    Except PlaceErr (Broker × ℕ) :=
  if quantity ≤ 0 then Except.error PlaceErr.invalidQuantity
  else if ¬(side = "buy" ∨ side = "sell") then Except.error PlaceErr.invalidSide
  else if ¬(order_type = "market" ∨ order_type = "limit" ∨
      order_type = "stop" ∨ order_type = "stop_limit") then
    Except.error PlaceErr.invalidType
  else
    match OrderSide.ofValue (pyUpper side), OrderType.ofValue (pyUpper order_type) with
    | some sd, some ot =>
        let oid := b.nextId
        let o : Order := {
          order_id := oid, symbol := symbol, side := sd, order_type := ot,
          quantity := quantity, price := price, stop_price := stop_price,
          status := OrderStatus.pending, filled_quantity := 0,
          filled_price := none, created_date := b.today }
        let b1 := { b with orders := b.orders ++ [o], nextId := oid + 1 }
        if order_type = "market" then
          let r := executeMarketOrder b1 o
          Except.ok ({ r.1 with orders := setOrder r.1.orders oid r.2 }, oid)
        else Except.ok (b1, oid)
    | _, _ => Except.error PlaceErr.enumValueError

/-- Limit-order trigger test of `_check_pending_orders`: a limit buy triggers
at `price ≤ limit`, a limit sell at `price ≥ limit`.  (A limit order stored
without a price would make the Python comparison against `None` raise
`TypeError`; no modelled scenario stores one.) -/
def limitTriggered (o : Order) (p : ℚ) : Bool :=
  match o.side, o.price with
  | OrderSide.buy, some lp => decide (p ≤ lp)
  | OrderSide.sell, some lp => decide (lp ≤ p)
  | _, none => false

/-- Stop-order trigger test of `_check_pending_orders`: a stop buy triggers
at `price ≥ stop`, a stop sell at `price ≤ stop`. -/
def stopTriggered (o : Order) (p : ℚ) : Bool :=
  match o.side, o.stop_price with
  | OrderSide.buy, some sp => decide (sp ≤ p)
  | OrderSide.sell, some sp => decide (p ≤ sp)
  | _, none => false

/-- One iteration of the first `_check_pending_orders` loop, on the order
stored under `oid`: a pending *limit* order on `sym` whose trigger fires is
executed along the market-order path and written back. -/
def limitStep (sym : String) (p : ℚ) (st : Broker) (oid : ℕ) : Broker :=
  match findOrder st.orders oid with
  | none => st
  | some o =>
      if o.status = OrderStatus.pending ∧ o.symbol = sym ∧
          o.order_type = OrderType.limit ∧ limitTriggered o p = true then
        let r := executeMarketOrder st o
        { r.1 with orders := setOrder r.1.orders oid r.2 }
      else st

/-- One iteration of the second `_check_pending_orders` loop, on the order
stored under `oid`: a pending *stop* order on `sym` whose trigger fires is
executed along the market-order path and written back. -/
def stopStep (sym : String) (p : ℚ) (st : Broker) (oid : ℕ) : Broker :=
  match findOrder st.orders oid with
  | none => st
  | some o =>
      if o.status = OrderStatus.pending ∧ o.symbol = sym ∧
          o.order_type = OrderType.stop ∧ stopTriggered o p = true then
        let r := executeMarketOrder st o
        { r.1 with orders := setOrder r.1.orders oid r.2 }
      else st

/-- `SimulatedBroker._check_pending_orders`: snapshot the stored orders,
then run the limit loop and the stop loop over the snapshot (executions
mutate the aliased order objects and the account, never add or remove
orders, so iterating the ids of the snapshot and re-reading each order from
the store is the aliasing-faithful reading). -/
def checkPendingOrders (b : Broker) (sym : String) : Broker :=
  match lookupAssoc b.price_data sym with
  | none => b
  | some p =>
      let ids := b.orders.map (fun o => o.order_id)
      let b1 := ids.foldl (limitStep sym p) b
      ids.foldl (stopStep sym p) b1

/-- `SimulatedBroker.update_price`: record the pushed price, then re-evaluate
pending limit/stop orders on that symbol. -/
def updatePrice (b : Broker) (sym : String) (p : ℚ) : Broker :=
  checkPendingOrders { b with price_data := setAssoc b.price_data sym p } sym

/-- A whole sequence of `update_price` calls, applied in order. -/
def applyUpdates (b : Broker) : List (String × ℚ) → Broker
  | [] => b
  | (s, p) :: rest => applyUpdates (updatePrice b s p) rest

/-- `RiskConfig` dataclass. -/
structure RiskConfig where
  max_position_per_stock : ℚ
  max_portfolio_risk : ℚ
  max_daily_loss : ℚ
  stop_loss_ratio : ℚ
  take_profit_ratio : ℚ
  max_orders_per_day : ℕ
  min_order_interval : ℕ
deriving DecidableEq, Repr

/-- `RiskAlert` dataclass reduced to the fields alerts are distinguished by
(the formatted message, timestamp and suggested action are not modelled). -/
structure RiskAlert where
  alert_type : String
  symbol : String
  severity : String
deriving DecidableEq, Repr

/-- `RiskManager._check_position_limit`: a BUY whose notional
`quantity × price` exceeds the per-stock cap is denied with a
medium-severity `position_limit` alert.  (The source also calls
`get_account_info` here but ignores its result.) -/
def checkPositionLimit (cfg : RiskConfig) (symbol : String) (quantity : ℤ)
    (price : ℚ) (signal_type : String) : Bool × List RiskAlert :=
  if signal_type = "BUY" ∧
      cfg.max_position_per_stock < (quantity : ℚ) * price then
    (false, [⟨"position_limit", symbol, "medium"⟩])
  else (true, [])

/-- The `new_exposure` computed by `RiskManager._check_portfolio_exposure`:
a BUY contributes `order_value / portfolio_value`; a sell subtracts the
order value from the existing position's fraction.  The portfolio value is
read from a freshly remarked account (`get_account_info` runs
`_update_positions_value` in place first).  Caveat: at a zero remarked
portfolio value Python raises `ZeroDivisionError` out of the check, while
Lean's total division returns `q / 0 = 0`; every theorem about the checks
from this one on therefore carries the hypothesis that the remarked total
value is nonzero, so it ranges only over states where the Python code
returns. -/
def newExposure (b : Broker) (symbol : String) (quantity : ℤ) (price : ℚ)
    (signal_type : String) : ℚ :=
  let bu := updatePositionsValue b
  let order_value := (quantity : ℚ) * price
  if signal_type = "BUY" then order_value / bu.total_value
  else
    match findPosition bu.positions symbol with
    | some position =>
        position.market_value / bu.total_value - order_value / bu.total_value
    | none => 0

/-- `RiskManager._check_portfolio_exposure`: deny with a high-severity
`portfolio_exposure` alert when the new exposure exceeds the configured
ratio. -/
def checkPortfolioExposure (cfg : RiskConfig) (b : Broker) (symbol : String)
    (quantity : ℤ) (price : ℚ) (signal_type : String) :
    Bool × List RiskAlert :=
  if cfg.max_portfolio_risk < newExposure b symbol quantity price signal_type
  then (false, [⟨"portfolio_exposure", symbol, "high"⟩])
  else (true, [])

/-- The orders `RiskManager._check_daily_order_limit` counts: stored orders
created today whose status is `filled`. -/
def todayFilledCount (b : Broker) : ℕ :=
  (b.orders.filter fun o =>
    decide (o.created_date = b.today) &&
    decide (o.status = OrderStatus.filled)).length

/-- `RiskManager._check_daily_order_limit`: deny with a medium-severity
`daily_order_limit` alert once today's filled-order count has reached the
daily cap. -/
def checkDailyOrderLimit (cfg : RiskConfig) (b : Broker) :
    Bool × List RiskAlert :=
  if cfg.max_orders_per_day ≤ todayFilledCount b then
    (false, [⟨"daily_order_limit", "ALL", "medium"⟩])
  else (true, [])

/-- The estimated order cost of `RiskManager._check_cash_availability`:
`quantity * price * 1.003` (commission buffer). -/
def orderCostWithFee (quantity : ℤ) (price : ℚ) : ℚ :=
  (quantity : ℚ) * price * (1003 / 1000)

/-- `RiskManager._check_cash_availability`: for a BUY, deny with a
high-severity `insufficient_cash` alert when the account cash does not
cover the buffered order cost.  (`get_account_info`'s remarking does not
change `cash`, so the cash is read directly.) -/
def checkCashAvailability (cfg : RiskConfig) (b : Broker) (symbol : String)
    (quantity : ℤ) (price : ℚ) (signal_type : String) :
    Bool × List RiskAlert :=
  if signal_type = "BUY" ∧ b.cash < orderCostWithFee quantity price then
    (false, [⟨"insufficient_cash", symbol, "high"⟩])
  else (true, [])

/-- `RiskManager.validate_signal`: run the four checks in source order —
position limit, portfolio exposure, daily order limit, cash availability —
returning `false` (with the alert the failing check emitted) at the first
failure, `true` with no alert when all pass. -/
def validateSignal (cfg : RiskConfig) (b : Broker) (symbol : String)
    (signal_type : String) (quantity : ℤ) (price : ℚ) :
    Bool × List RiskAlert :=
  match checkPositionLimit cfg symbol quantity price signal_type with
  | (false, a) => (false, a)
  | (true, _) =>
  match checkPortfolioExposure cfg b symbol quantity price signal_type with
  | (false, a) => (false, a)
  | (true, _) =>
  match checkDailyOrderLimit cfg b with
  | (false, a) => (false, a)
  | (true, _) =>
  match checkCashAvailability cfg b symbol quantity price signal_type with
  | (false, a) => (false, a)
  | (true, _) => (true, [])

/-- The `daily_loss_ratio` of `RiskManager.check_daily_loss_limit`: the
change of the freshly recomputed total value relative to the *hardcoded*
reference value `initial_value = 100000.0` (not the session's opening
value). -/
def dailyLossRatio (b : Broker) : ℚ :=
  ((updatePositionsValue b).total_value - 100000) / 100000

/-- `RiskManager.check_daily_loss_limit`: on a breach of the configured max
daily loss (`daily_loss_ratio <= -max_daily_loss`) return `false` with a
critical `daily_loss_limit` alert, else `true` with no alert. -/
def checkDailyLossLimit (cfg : RiskConfig) (b : Broker) :
    Bool × List RiskAlert :=
  if dailyLossRatio b ≤ -cfg.max_daily_loss then
    (false, [⟨"daily_loss_limit", "ALL", "critical"⟩])
  else (true, [])

/-- `AutomatedTrader.manual_trade`: forwards the request directly to
`broker.place_order` and re-raises whatever it raises.  The risk manager is
never consulted, so the list of risk alerts emitted during the call is
always empty; the list is carried explicitly so the call can be compared
with the spec's description. -/
def manualTrade (b : Broker) (symbol : String) (quantity : ℤ) (side : String)
    (order_type : String) : Except PlaceErr (Broker × ℕ) × List RiskAlert :=
  (placeOrder b symbol quantity side order_type none none, [])

/-- Trading-calendar configuration of `TradingScheduler` (`datetime.time`
values reduced to seconds since midnight): open 09:30, close 15:00, lunch
break 11:30–13:00. -/
structure SchedulerCfg where
  market_open : ℕ
  market_close : ℕ
  lunch_break_start : ℕ
  lunch_break_end : ℕ
deriving DecidableEq, Repr

/-- The constructor defaults of `TradingScheduler`. -/
def defaultSchedulerCfg : SchedulerCfg :=
  { market_open := 34200, market_close := 54000,
    lunch_break_start := 41400, lunch_break_end := 46800 }

/-- `TradingScheduler.is_market_open`: false outside
`market_open ≤ now ≤ market_close` (both comparisons inclusive in the
source), false inside `lunch_break_start ≤ now ≤ lunch_break_end` (also
inclusive), true otherwise. -/
def isMarketOpen (cfg : SchedulerCfg) (now : ℕ) : Bool :=
  if ¬(cfg.market_open ≤ now ∧ now ≤ cfg.market_close) then false
  else if cfg.lunch_break_start ≤ now ∧ now ≤ cfg.lunch_break_end then false
  else true

/-- The trading window exactly as claim C9 words it: the half-open window
`[09:30, 15:00)` minus the lunch-break window. -/
def claimMarketWindow (cfg : SchedulerCfg) (now : ℕ) : Prop :=
  (cfg.market_open ≤ now ∧ now < cfg.market_close) ∧
  ¬(cfg.lunch_break_start ≤ now ∧ now ≤ cfg.lunch_break_end)

/-- Outcomes of a manual trade as the spec describes it: either one of
`place_order`'s own errors, or a risk denial that stops the order before it
reaches the broker. -/
inductive TradeErr where
  | place (e : PlaceErr)
  | riskDenied
deriving DecidableEq, Repr

/-- Modelled from the spec: `ManualTrade` "bypasses signal evaluation but
still passes through RiskEngine" — the missing risk pass of
`AutomatedTrader.manual_trade`: validate the proposed trade via
`validate_signal` first (at the given price, surfacing the denial alerts),
and only on approval forward to `place_order`. -/
def manualTradeSpec (cfg : RiskConfig) (b : Broker) (symbol : String)
    (quantity : ℤ) (side : String) (order_type : String) (price : ℚ) :
    Except TradeErr (Broker × ℕ) × List RiskAlert :=
  let signal_type := if side = "buy" then "BUY" else "SELL"
  let v := validateSignal cfg b symbol signal_type quantity price
  if v.1 = true then
    ((placeOrder b symbol quantity side order_type none none).mapError
      TradeErr.place, v.2)
  else (Except.error TradeErr.riskDenied, v.2)

end Trading

namespace Trading

/-! ### Concrete instances used by the witnesses and counterexamples -/

/-- A freshly constructed `SimulatedBroker(initial_cash=100000.0)` with the
constructor defaults `commission_per_share=0.003`, `min_commission=5.0`,
`slippage=0.001`. -/
def freshBroker : Broker :=
  { cash := 100000, total_value := 100000, commission_per_share := 3/1000,
    min_commission := 5, slippage := 1/1000, orders := [], positions := [],
    price_data := [], nextId := 1, today := 0 }

/-- A market buy order for 100 shares of AAPL (the §8 scenario of the spec). -/
def cexOrder3 : Order :=
  { order_id := 1, symbol := "AAPL", side := OrderSide.buy,
    order_type := OrderType.market, quantity := 100, price := none,
    stop_price := none, status := OrderStatus.pending, filled_quantity := 0,
    filled_price := none, created_date := 0 }

/-- The fresh broker after AAPL's price has been pushed as 150. -/
def cexBroker3 : Broker := { freshBroker with price_data := [("AAPL", 150)] }

/-! ### C1 -/

/-- C1: refuted by the code — `place_order` with perfectly valid parameters
(`quantity = 100 > 0`, `side = "buy"`, `order_type = "market"`; likewise for
a valid limit sell) raises `ValueError` instead of returning an order id:
the `Order` construction looks the enums up *by value* with
`OrderSide(side.upper())` / `OrderType(order_type.upper())`, whose member
values are the lowercase strings.  The exception fires before
`self.orders[order_id] = order`, so no durable record exists either. -/
theorem claim1 :
    placeOrder freshBroker "AAPL" 100 "buy" "market" none none =
      Except.error PlaceErr.enumValueError ∧
    placeOrder freshBroker "AAPL" 50 "sell" "limit" (some 10) none =
      Except.error PlaceErr.enumValueError := by
  exact ⟨rfl, rfl⟩

/-! ### C3 -/

/-- C3: refuted by the code on the spec's own scenario — a market buy of
100 AAPL at price 150 with cash 100000 (slippage 0.001, commission 0.003
per share, min 5.0) has a price available and ample cash, yet does *not*
fill: `_execute_buy_order` debits the cash (100000 − (100×150.15 + 5) =
84980) and then crashes constructing the new `Position` (the call omits
the required `unrealized_pnl` field), so `_execute_market_order` catches
the `TypeError` and marks the order rejected while the cash stays debited
and no position exists. -/
theorem claim3 :
    executeMarketOrder cexBroker3 cexOrder3 =
      ({ cexBroker3 with cash := 84980 },
        { cexOrder3 with status := OrderStatus.rejected }) := by
  norm_num [executeMarketOrder, executeBuyOrder, getCurrentPrice, lookupAssoc,
    insufficientPosition, findPosition, cexOrder3, cexBroker3, freshBroker]
  <;> decide

/-! ### C5 -/

/-- A market buy order for 10 shares of GOOG on a broker that has never
held GOOG. -/
def cexOrder5 : Order :=
  { order_id := 1, symbol := "GOOG", side := OrderSide.buy,
    order_type := OrderType.market, quantity := 10, price := none,
    stop_price := none, status := OrderStatus.pending, filled_quantity := 0,
    filled_price := none, created_date := 0 }

/-- Broker with 50000 cash and GOOG quoted at 200, no positions. -/
def cexBroker5 : Broker :=
  { freshBroker with
    cash := 50000,
    total_value := 50000,
    price_data := [("GOOG", 200)] }

/-- C5: refuted by the code — the very first buy of any would-be sequence
of filled buys on a symbol can never fill: with no existing position the
`Position` constructor call in `_execute_buy_order` omits the required
`unrealized_pnl` field and raises `TypeError`, so the order is rejected
(cash 50000 − (10×200.2 + 5) = 47993 stays debited, no position is
created) and the weighted-average invariant over filled buys can never be
established. -/
theorem claim5 :
    executeMarketOrder cexBroker5 cexOrder5 =
      ({ cexBroker5 with cash := 47993 },
        { cexOrder5 with status := OrderStatus.rejected }) := by
  norm_num [executeMarketOrder, executeBuyOrder, getCurrentPrice, lookupAssoc,
    insufficientPosition, findPosition, cexOrder5, cexBroker5, freshBroker]
  <;> decide

/-! ### C9 -/

/-- C9 counterexample: at 15:00:00 sharp (second 54000 of the day)
`is_market_open` returns `true` — the source compares `now <=
market_close` inclusively — while the claim's half-open window
`[09:30, 15:00)` excludes that instant. -/
theorem claim9_cex :
    isMarketOpen defaultSchedulerCfg 54000 = true ∧
    ¬ claimMarketWindow defaultSchedulerCfg 54000 := by
  refine ⟨rfl, ?_⟩
  simp [claimMarketWindow, defaultSchedulerCfg]

/-- C9 (amended): `is_market_open` returns `true` exactly when the time of
day lies in the *closed* trading window `[09:30, 15:00]` and not in the
closed lunch-break window `[11:30, 13:00]`; in particular it is `false`
throughout the lunch break and `true` immediately before and after it,
but also `true` at the close boundary 15:00 itself. -/
theorem claim9 :
    ∀ (cfg : SchedulerCfg) (now : ℕ),
      isMarketOpen cfg now = true ↔
        ((cfg.market_open ≤ now ∧ now ≤ cfg.market_close) ∧
          ¬(cfg.lunch_break_start ≤ now ∧ now ≤ cfg.lunch_break_end)) := by
  intro cfg now
  unfold isMarketOpen
  split_ifs with h1 h2 <;> simp_all

end Trading

namespace Trading

/-! ### C4 -/

/-- C4: for any market-path sell whose requested quantity exceeds the held
quantity of the symbol (including no position at all — the
`insufficientPosition` guard of `_execute_market_order`), the execution
returns the broker state exactly as it was (no cash or position mutation)
and the order rejected.  This also covers the no-price branch, which
rejects without mutating anything either. -/
theorem claim4 (b : Broker) (o : Order) (hside : o.side = OrderSide.sell)
    (hpos : insufficientPosition b o = true) :
    executeMarketOrder b o = (b, { o with status := OrderStatus.rejected }) := by
  cases h : getCurrentPrice b o.symbol with
  | none => simp [executeMarketOrder, h]
  | some p => simp [executeMarketOrder, h, hside, hpos]

/-- A ten-share AAPL position carried at an average price of 90. -/
def cexPosition4 : Position :=
  { symbol := "AAPL",
    quantity := 10,
    average_price := 90,
    current_price := 100,
    market_value := 1000,
    unrealized_pnl := 100,
    realized_pnl := 0 }

/-- A broker holding 10 shares of AAPL with AAPL quoted at 100. -/
def cexBroker4 : Broker :=
  { freshBroker with
    price_data := [("AAPL", 100)],
    positions := [cexPosition4] }

/-- A market sell of 20 AAPL — more than the 10 held. -/
def cexOrder4 : Order :=
  { order_id := 1, symbol := "AAPL", side := OrderSide.sell,
    order_type := OrderType.market, quantity := 20, price := none,
    stop_price := none, status := OrderStatus.pending, filled_quantity := 0,
    filled_price := none, created_date := 0 }

/-- Witness for C4: selling 20 of a 10-share position is rejected and the
broker state is untouched. -/
theorem claim4_witness :
    executeMarketOrder cexBroker4 cexOrder4 =
      (cexBroker4, { cexOrder4 with status := OrderStatus.rejected }) :=
  claim4 cexBroker4 cexOrder4 rfl (by rfl)

/-! ### C8 -/

/-- A broker whose recomputed total value is 96000 (cash only). -/
def cexBroker8 : Broker :=
  { freshBroker with cash := 96000, total_value := 96000 }

/-- The `DEFAULT_RISK_CONFIG` of the source (`max_position_per_stock=20000`,
`max_portfolio_risk=0.25`, `max_daily_loss=0.03`, `stop_loss_ratio=0.08`,
`take_profit_ratio=0.25`, `max_orders_per_day=20`,
`min_order_interval=60`). -/
def defaultRiskConfig : RiskConfig :=
  { max_position_per_stock := 20000, max_portfolio_risk := 1/4,
    max_daily_loss := 3/100, stop_loss_ratio := 8/100,
    take_profit_ratio := 1/4, max_orders_per_day := 20,
    min_order_interval := 60 }

/-- C8: with `max_daily_loss = 0.03` and the hardcoded reference value
100000, a total value of 96000 (loss ratio −0.04) makes
`check_daily_loss_limit` return `false` with a critical
`daily_loss_limit` alert; and whenever the signed ratio
`(total − 100000)/100000` stays strictly above `−max_daily_loss` it
returns `true` and emits no alert. -/
theorem claim8 :
    checkDailyLossLimit defaultRiskConfig cexBroker8 =
      (false, [⟨"daily_loss_limit", "ALL", "critical"⟩]) ∧
    ∀ (cfg : RiskConfig) (b : Broker),
      -cfg.max_daily_loss < dailyLossRatio b →
      checkDailyLossLimit cfg b = (true, []) := by
  constructor
  · norm_num [checkDailyLossLimit, dailyLossRatio, updatePositionsValue,
      cexBroker8, freshBroker, defaultRiskConfig]
  · intro cfg b h
    unfold checkDailyLossLimit
    rw [if_neg (not_le.mpr h)]

/-- Witness for C8: the fresh broker (total value 100000, ratio 0) passes
the daily-loss check with no alert. -/
theorem claim8_witness : checkDailyLossLimit defaultRiskConfig freshBroker = (true, []) :=
  claim8.2 defaultRiskConfig freshBroker
    (by norm_num [dailyLossRatio, updatePositionsValue, freshBroker,
      defaultRiskConfig])

end Trading

namespace Trading

/-! ### C2 -/

/-- A risk configuration with a 1000-per-stock cap, under which a
100-share buy at price 150 (notional 15000) must be denied. -/
def cexRiskCfg2 : RiskConfig :=
  { defaultRiskConfig with max_position_per_stock := 1000 }

/-- C2 counterexample: at this concrete input the RiskEngine denies the
trade (with a `position_limit` alert), so the claim requires the manual
trade to stop before the broker; but `manual_trade` consults no risk
check at all — it emits no risk alert and forwards straight to
`place_order`, surfacing that function's internal `ValueError` instead of
a risk denial.  The spec-modelled `manualTradeSpec` shows what "passes
through the RiskEngine" would have produced instead. -/
theorem claim2_cex :
    validateSignal cexRiskCfg2 freshBroker "AAPL" "BUY" 100 150 =
      (false, [⟨"position_limit", "AAPL", "medium"⟩]) ∧
    manualTrade freshBroker "AAPL" 100 "buy" "market" =
      (Except.error PlaceErr.enumValueError, []) ∧
    manualTradeSpec cexRiskCfg2 freshBroker "AAPL" 100 "buy" "market" 150 =
      (Except.error TradeErr.riskDenied,
        [⟨"position_limit", "AAPL", "medium"⟩]) := by
  refine ⟨?_, rfl, ?_⟩ <;>
    norm_num [validateSignal, checkPositionLimit, manualTradeSpec,
      cexRiskCfg2, defaultRiskConfig]

/-- C2 (amended): `manual_trade` does not pass through the RiskEngine —
even when `validate_signal` would deny the trade, the call forwards
directly to `broker.place_order` (emitting no risk alert); only
`place_order`'s own parameter validation applies. -/
theorem claim2 (cfg : RiskConfig) (b : Broker) (symbol : String)
    (quantity : ℤ) (side order_type signal_type : String) (price : ℚ)
    (hdeny : (validateSignal cfg b symbol signal_type quantity price).1 = false) :
    manualTrade b symbol quantity side order_type =
      (placeOrder b symbol quantity side order_type none none, []) := rfl

/-- Witness for C2: at the risk-denied concrete input the manual trade
still goes straight to `place_order`. -/
theorem claim2_witness :
    manualTrade freshBroker "AAPL" 100 "buy" "market" =
      (placeOrder freshBroker "AAPL" 100 "buy" "market" none none, []) :=
  claim2 cexRiskCfg2 freshBroker "AAPL" 100 "buy" "market" "BUY" 150
    (by norm_num [validateSignal, checkPositionLimit, cexRiskCfg2,
      defaultRiskConfig])

/-! ### C6 -/

/-- `_check_position_limit` on a failing input. -/
theorem checkPositionLimit_fail (cfg : RiskConfig) (symbol : String)
    (quantity : ℤ) (price : ℚ) (signal_type : String)
    (h : signal_type = "BUY" ∧
      cfg.max_position_per_stock < (quantity : ℚ) * price) :
    checkPositionLimit cfg symbol quantity price signal_type =
      (false, [⟨"position_limit", symbol, "medium"⟩]) := by
  unfold checkPositionLimit
  rw [if_pos h]

/-- `_check_position_limit` on a passing input. -/
theorem checkPositionLimit_pass (cfg : RiskConfig) (symbol : String)
    (quantity : ℤ) (price : ℚ) (signal_type : String)
    (h : ¬(signal_type = "BUY" ∧
      cfg.max_position_per_stock < (quantity : ℚ) * price)) :
    checkPositionLimit cfg symbol quantity price signal_type = (true, []) := by
  unfold checkPositionLimit
  rw [if_neg h]

/-- `_check_portfolio_exposure` on a failing input. -/
theorem checkPortfolioExposure_fail (cfg : RiskConfig) (b : Broker)
    (symbol : String) (quantity : ℤ) (price : ℚ) (signal_type : String)
    (h : cfg.max_portfolio_risk < newExposure b symbol quantity price signal_type) :
    checkPortfolioExposure cfg b symbol quantity price signal_type =
      (false, [⟨"portfolio_exposure", symbol, "high"⟩]) := by
  unfold checkPortfolioExposure
  rw [if_pos h]

/-- `_check_portfolio_exposure` on a passing input. -/
theorem checkPortfolioExposure_pass (cfg : RiskConfig) (b : Broker)
    (symbol : String) (quantity : ℤ) (price : ℚ) (signal_type : String)
    (h : ¬ cfg.max_portfolio_risk < newExposure b symbol quantity price signal_type) :
    checkPortfolioExposure cfg b symbol quantity price signal_type = (true, []) := by
  unfold checkPortfolioExposure
  rw [if_neg h]

/-- `_check_daily_order_limit` on a failing input. -/
theorem checkDailyOrderLimit_fail (cfg : RiskConfig) (b : Broker)
    (h : cfg.max_orders_per_day ≤ todayFilledCount b) :
    checkDailyOrderLimit cfg b =
      (false, [⟨"daily_order_limit", "ALL", "medium"⟩]) := by
  unfold checkDailyOrderLimit
  rw [if_pos h]

/-- `_check_daily_order_limit` on a passing input. -/
theorem checkDailyOrderLimit_pass (cfg : RiskConfig) (b : Broker)
    (h : ¬ cfg.max_orders_per_day ≤ todayFilledCount b) :
    checkDailyOrderLimit cfg b = (true, []) := by
  unfold checkDailyOrderLimit
  rw [if_neg h]

/-- `_check_cash_availability` on a failing input. -/
theorem checkCashAvailability_fail (cfg : RiskConfig) (b : Broker)
    (symbol : String) (quantity : ℤ) (price : ℚ) (signal_type : String)
    (h : signal_type = "BUY" ∧ b.cash < orderCostWithFee quantity price) :
    checkCashAvailability cfg b symbol quantity price signal_type =
      (false, [⟨"insufficient_cash", symbol, "high"⟩]) := by
  unfold checkCashAvailability
  rw [if_pos h]

/-- `_check_cash_availability` on a passing input. -/
theorem checkCashAvailability_pass (cfg : RiskConfig) (b : Broker)
    (symbol : String) (quantity : ℤ) (price : ℚ) (signal_type : String)
    (h : ¬(signal_type = "BUY" ∧ b.cash < orderCostWithFee quantity price)) :
    checkCashAvailability cfg b symbol quantity price signal_type = (true, []) := by
  unfold checkCashAvailability
  rw [if_neg h]

/-- C6: `validate_signal` short-circuits at the first failing check, in the
order position-limit (medium), portfolio-exposure (high),
daily-order-count (medium), cash-sufficiency (high), emitting exactly that
check's alert; in particular a BUY whose notional exceeds
`max_position_per_stock` is denied with the medium `position_limit` alert
no matter how much cash is available, and when all checks pass the result
is approval with no alert.  The conjuncts from the exposure check on carry
the hypothesis that the remarked total value is nonzero: at a zero
remarked total value the Python exposure check raises `ZeroDivisionError`
instead of returning, a path the total Lean division would otherwise
misrepresent. -/
theorem claim6 :
    (∀ (cfg : RiskConfig) (b : Broker) (symbol : String) (quantity : ℤ)
        (price : ℚ),
      cfg.max_position_per_stock < (quantity : ℚ) * price →
      validateSignal cfg b symbol "BUY" quantity price =
        (false, [⟨"position_limit", symbol, "medium"⟩])) ∧
    (∀ (cfg : RiskConfig) (b : Broker) (symbol signal_type : String)
        (quantity : ℤ) (price : ℚ),
      (updatePositionsValue b).total_value ≠ 0 →
      ¬(signal_type = "BUY" ∧
        cfg.max_position_per_stock < (quantity : ℚ) * price) →
      cfg.max_portfolio_risk < newExposure b symbol quantity price signal_type →
      validateSignal cfg b symbol signal_type quantity price =
        (false, [⟨"portfolio_exposure", symbol, "high"⟩])) ∧
    (∀ (cfg : RiskConfig) (b : Broker) (symbol signal_type : String)
        (quantity : ℤ) (price : ℚ),
      (updatePositionsValue b).total_value ≠ 0 →
      ¬(signal_type = "BUY" ∧
        cfg.max_position_per_stock < (quantity : ℚ) * price) →
      ¬ cfg.max_portfolio_risk < newExposure b symbol quantity price signal_type →
      cfg.max_orders_per_day ≤ todayFilledCount b →
      validateSignal cfg b symbol signal_type quantity price =
        (false, [⟨"daily_order_limit", "ALL", "medium"⟩])) ∧
    (∀ (cfg : RiskConfig) (b : Broker) (symbol signal_type : String)
        (quantity : ℤ) (price : ℚ),
      (updatePositionsValue b).total_value ≠ 0 →
      ¬(signal_type = "BUY" ∧
        cfg.max_position_per_stock < (quantity : ℚ) * price) →
      ¬ cfg.max_portfolio_risk < newExposure b symbol quantity price signal_type →
      ¬ cfg.max_orders_per_day ≤ todayFilledCount b →
      signal_type = "BUY" ∧ b.cash < orderCostWithFee quantity price →
      validateSignal cfg b symbol signal_type quantity price =
        (false, [⟨"insufficient_cash", symbol, "high"⟩])) ∧
    (∀ (cfg : RiskConfig) (b : Broker) (symbol signal_type : String)
        (quantity : ℤ) (price : ℚ),
      (updatePositionsValue b).total_value ≠ 0 →
      ¬(signal_type = "BUY" ∧
        cfg.max_position_per_stock < (quantity : ℚ) * price) →
      ¬ cfg.max_portfolio_risk < newExposure b symbol quantity price signal_type →
      ¬ cfg.max_orders_per_day ≤ todayFilledCount b →
      ¬(signal_type = "BUY" ∧ b.cash < orderCostWithFee quantity price) →
      validateSignal cfg b symbol signal_type quantity price = (true, [])) := by
  refine ⟨?_, ?_, ?_, ?_, ?_⟩
  · intro cfg b symbol quantity price h
    simp [validateSignal, checkPositionLimit_fail cfg symbol quantity price
      "BUY" ⟨rfl, h⟩]
  · intro cfg b symbol signal_type quantity price hpv h1 h2
    simp [validateSignal,
      checkPositionLimit_pass cfg symbol quantity price signal_type h1,
      checkPortfolioExposure_fail cfg b symbol quantity price signal_type h2]
  · intro cfg b symbol signal_type quantity price hpv h1 h2 h3
    simp [validateSignal,
      checkPositionLimit_pass cfg symbol quantity price signal_type h1,
      checkPortfolioExposure_pass cfg b symbol quantity price signal_type h2,
      checkDailyOrderLimit_fail cfg b h3]
  · intro cfg b symbol signal_type quantity price hpv h1 h2 h3 h4
    simp [validateSignal,
      checkPositionLimit_pass cfg symbol quantity price signal_type h1,
      checkPortfolioExposure_pass cfg b symbol quantity price signal_type h2,
      checkDailyOrderLimit_pass cfg b h3,
      checkCashAvailability_fail cfg b symbol quantity price signal_type h4]
  · intro cfg b symbol signal_type quantity price hpv h1 h2 h3 h4
    simp [validateSignal,
      checkPositionLimit_pass cfg symbol quantity price signal_type h1,
      checkPortfolioExposure_pass cfg b symbol quantity price signal_type h2,
      checkDailyOrderLimit_pass cfg b h3,
      checkCashAvailability_pass cfg b symbol quantity price signal_type h4]

/-- Witness for C6: under the default risk config, a BUY of 100 shares at
price 300 (notional 30000 > 20000) is denied with the medium
`position_limit` alert, cash notwithstanding; and a BUY of 10 shares at
price 100 on the fresh broker (remarked total value 100000 ≠ 0) passes
every check and is approved with no alert. -/
theorem claim6_witness :
    validateSignal defaultRiskConfig freshBroker "AAPL" "BUY" 100 300 =
      (false, [⟨"position_limit", "AAPL", "medium"⟩]) ∧
    validateSignal defaultRiskConfig freshBroker "AAPL" "BUY" 10 100 =
      (true, []) :=
  ⟨claim6.1 defaultRiskConfig freshBroker "AAPL" 100 300
      (by norm_num [defaultRiskConfig]),
    claim6.2.2.2.2 defaultRiskConfig freshBroker "AAPL" "BUY" 10 100
      (by norm_num [updatePositionsValue, freshBroker])
      (by norm_num [defaultRiskConfig])
      (by norm_num [newExposure, updatePositionsValue, freshBroker,
        defaultRiskConfig])
      (by norm_num [todayFilledCount, freshBroker, defaultRiskConfig])
      (by norm_num [orderCostWithFee, freshBroker, defaultRiskConfig])⟩

end Trading

namespace Trading

/-! ### Small constructor facts used to evaluate the broker on literals -/

theorem buyNeSell : OrderSide.buy ≠ OrderSide.sell :=
  fun h => OrderSide.noConfusion h

theorem sellNeBuy : OrderSide.sell ≠ OrderSide.buy :=
  fun h => OrderSide.noConfusion h

theorem rejectedNePending : OrderStatus.rejected ≠ OrderStatus.pending :=
  fun h => OrderStatus.noConfusion h

theorem filledNePending : OrderStatus.filled ≠ OrderStatus.pending :=
  fun h => OrderStatus.noConfusion h

theorem limitNeStop : OrderType.limit ≠ OrderType.stop :=
  fun h => OrderType.noConfusion h

/-! ### C7 -/

/-- A pending limit buy for 100 AAPL with limit price 10. -/
def cexOrder7 : Order :=
  { order_id := 1, symbol := "AAPL", side := OrderSide.buy,
    order_type := OrderType.limit, quantity := 100, price := some 10,
    stop_price := none, status := OrderStatus.pending, filled_quantity := 0,
    filled_price := none, created_date := 0 }

/-- Fresh broker (cash 100000, no position) holding the pending limit buy. -/
def cexBroker7 : Broker :=
  { freshBroker with orders := [cexOrder7], nextId := 2 }

/-- The broker after `update_price("AAPL", 10.5)` — price above the limit. -/
def cexBroker7a : Broker := updatePrice cexBroker7 "AAPL" (21/2)

/-- C7: the trigger logic behaves as claimed — the pending limit buy is
untouched by `update_price` at 10.5 > limit 10 — but on the first update
at 9.9 ≤ 10, with ample cash (100000 ≫ 995.99), the market-order
execution path *rejects* the order instead of filling it: the
`Position` constructor call for the fresh symbol omits the required
`unrealized_pnl` field and raises `TypeError`, which
`_execute_market_order` catches after the cash was already debited
(100000 − (100×9.9×1.001 + 5) = 99004.01).  The order ends rejected, the
cash is gone, and no position exists. -/
theorem claim7 :
    findOrder cexBroker7a.orders 1 = some cexOrder7 ∧
    cexBroker7a.cash = 100000 ∧
    findOrder (updatePrice cexBroker7a "AAPL" (99/10)).orders 1 =
      some { cexOrder7 with
        status := OrderStatus.rejected } ∧
    (updatePrice cexBroker7a "AAPL" (99/10)).cash = 9900401/100 ∧
    (updatePrice cexBroker7a "AAPL" (99/10)).positions = [] := by
  refine ⟨?_, ?_, ?_, ?_, ?_⟩ <;>
    norm_num [cexBroker7a, cexBroker7, cexOrder7, freshBroker, updatePrice,
      checkPendingOrders, limitStep, stopStep, limitTriggered, stopTriggered,
      setAssoc, lookupAssoc, findOrder, setOrder, executeMarketOrder,
      executeBuyOrder, executeSellOrder, getCurrentPrice,
      insufficientPosition, findPosition, List.foldl, buyNeSell, sellNeBuy,
      rejectedNePending, filledNePending, limitNeStop]

end Trading

namespace Trading

/-! ### C10 -/

/-- An order found under a key carries that key as its id. -/
theorem findOrder_id (l : List Order) (oid : ℕ) (o : Order)
    (h : findOrder l oid = some o) : o.order_id = oid := by
  induction l with
  | nil => simp [findOrder] at h
  | cons a rest ih =>
    by_cases ha : a.order_id = oid
    · simp [findOrder, ha] at h
      subst h
      exact ha
    · simp [findOrder, ha] at h
      exact ih h

/-- Updating the entry stored under a different key does not change a
lookup. -/
theorem findOrder_setOrder_ne (l : List Order) (oid' : ℕ) (v : Order)
    (oid : ℕ) (hv : v.order_id = oid') (hne : oid ≠ oid') :
    findOrder (setOrder l oid' v) oid = findOrder l oid := by
  induction l with
  | nil => rfl
  | cons a rest ih =>
    by_cases ha : a.order_id = oid'
    · have hv' : ¬ v.order_id = oid := by
        rw [hv]; exact fun h => hne h.symm
      have ha' : ¬ a.order_id = oid := by
        rw [ha]; exact fun h => hne h.symm
      simp [setOrder, ha, findOrder, hv', ha', Ne.symm hne]
    · simp [setOrder, ha, findOrder, ih]

/-- `_execute_buy_order` touches only cash and positions, never the order
store. -/
theorem executeBuyOrder_orders (b : Broker) (o : Order) (price commission : ℚ) :
    (executeBuyOrder b o price commission).1.orders = b.orders := by
  cases h : findPosition b.positions o.symbol <;> simp [executeBuyOrder, h]

/-- `_execute_sell_order` touches only cash and positions, never the order
store. -/
theorem executeSellOrder_orders (b : Broker) (o : Order) (price commission : ℚ) :
    (executeSellOrder b o price commission).1.orders = b.orders := by
  cases h : findPosition b.positions o.symbol with
  | none => simp [executeSellOrder, h]
  | some pos =>
    simp only [executeSellOrder, h]
    split_ifs <;> rfl

/-- `_execute_market_order` never adds or removes stored orders. -/
theorem executeMarketOrder_orders (b : Broker) (o : Order) :
    (executeMarketOrder b o).1.orders = b.orders := by
  simp only [executeMarketOrder]
  cases h : getCurrentPrice b o.symbol with
  | none => rfl
  | some cp =>
    simp only [h]
    split_ifs <;>
      simp [executeBuyOrder_orders, executeSellOrder_orders]

/-- `_execute_market_order` only mutates the status/fill fields of the
order it executes; the id is unchanged. -/
theorem executeMarketOrder_order_id (b : Broker) (o : Order) :
    (executeMarketOrder b o).2.order_id = o.order_id := by
  simp only [executeMarketOrder]
  cases h : getCurrentPrice b o.symbol with
  | none => rfl
  | some cp =>
    simp only [h]
    split_ifs <;> rfl

/-- The limit-order pass of `_check_pending_orders` leaves every stored
`stop_limit` order untouched. -/
theorem limitStep_preserves (sym : String) (p : ℚ) (st : Broker)
    (oid' oid : ℕ) (o : Order) (ho : findOrder st.orders oid = some o)
    (ht : o.order_type = OrderType.stopLimit) :
    findOrder (limitStep sym p st oid').orders oid = some o := by
  simp only [limitStep]
  split
  · exact ho
  · rename_i o' hf
    by_cases hc : o'.status = OrderStatus.pending ∧ o'.symbol = sym ∧
        o'.order_type = OrderType.limit ∧ limitTriggered o' p = true
    · have hid : o'.order_id = oid' := findOrder_id _ _ _ hf
      have hne : oid ≠ oid' := by
        intro he
        subst he
        rw [ho] at hf
        injection hf with h'
        subst h'
        rw [ht] at hc
        exact OrderType.noConfusion hc.2.2.1
      rw [if_pos hc]
      show findOrder (setOrder (executeMarketOrder st o').1.orders oid'
        (executeMarketOrder st o').2) oid = some o
      rw [findOrder_setOrder_ne _ _ _ _
        ((executeMarketOrder_order_id st o').trans hid) hne,
        executeMarketOrder_orders]
      exact ho
    · rw [if_neg hc]
      exact ho

/-- The stop-order pass of `_check_pending_orders` leaves every stored
`stop_limit` order untouched. -/
theorem stopStep_preserves (sym : String) (p : ℚ) (st : Broker)
    (oid' oid : ℕ) (o : Order) (ho : findOrder st.orders oid = some o)
    (ht : o.order_type = OrderType.stopLimit) :
    findOrder (stopStep sym p st oid').orders oid = some o := by
  simp only [stopStep]
  split
  · exact ho
  · rename_i o' hf
    by_cases hc : o'.status = OrderStatus.pending ∧ o'.symbol = sym ∧
        o'.order_type = OrderType.stop ∧ stopTriggered o' p = true
    · have hid : o'.order_id = oid' := findOrder_id _ _ _ hf
      have hne : oid ≠ oid' := by
        intro he
        subst he
        rw [ho] at hf
        injection hf with h'
        subst h'
        rw [ht] at hc
        exact OrderType.noConfusion hc.2.2.1
      rw [if_pos hc]
      show findOrder (setOrder (executeMarketOrder st o').1.orders oid'
        (executeMarketOrder st o').2) oid = some o
      rw [findOrder_setOrder_ne _ _ _ _
        ((executeMarketOrder_order_id st o').trans hid) hne,
        executeMarketOrder_orders]
      exact ho
    · rw [if_neg hc]
      exact ho

/-- A fold of an order-preserving step preserves the lookup. -/
theorem foldl_preserves_order {step : Broker → ℕ → Broker} (oid : ℕ)
    (o : Order)
    (H : ∀ (st : Broker) (oid' : ℕ), findOrder st.orders oid = some o →
      findOrder (step st oid').orders oid = some o) :
    ∀ (ids : List ℕ) (st : Broker), findOrder st.orders oid = some o →
      findOrder (ids.foldl step st).orders oid = some o := by
  intro ids
  induction ids with
  | nil => intro st h; exact h
  | cons i rest ih => intro st h; exact ih _ (H st i h)

/-- `_check_pending_orders` leaves every stored `stop_limit` order
untouched. -/
theorem checkPendingOrders_preserves (b : Broker) (sym : String) (oid : ℕ)
    (o : Order) (ho : findOrder b.orders oid = some o)
    (ht : o.order_type = OrderType.stopLimit) :
    findOrder (checkPendingOrders b sym).orders oid = some o := by
  simp only [checkPendingOrders]
  cases hp : lookupAssoc b.price_data sym with
  | none => exact ho
  | some p =>
    exact foldl_preserves_order oid o
      (fun st oid' h => stopStep_preserves sym p st oid' oid o h ht) _ _
      (foldl_preserves_order oid o
        (fun st oid' h => limitStep_preserves sym p st oid' oid o h ht) _ _ ho)

/-- `update_price` leaves every stored `stop_limit` order untouched. -/
theorem updatePrice_preserves (b : Broker) (sym : String) (p : ℚ) (oid : ℕ)
    (o : Order) (ho : findOrder b.orders oid = some o)
    (ht : o.order_type = OrderType.stopLimit) :
    findOrder (updatePrice b sym p).orders oid = some o :=
  checkPendingOrders_preserves _ _ _ _ ho ht

/-- C10: over any sequence of `update_price` calls, a stored order of type
`stop_limit` is returned unchanged by every lookup — in particular its
status stays `pending` and its `filled_quantity` stays 0 if they started
that way — because `_check_pending_orders` re-evaluates only `limit` and
`stop` orders. -/
theorem claim10 (updates : List (String × ℚ)) :
    ∀ (b : Broker) (oid : ℕ) (o : Order),
      findOrder b.orders oid = some o →
      o.order_type = OrderType.stopLimit →
      findOrder (applyUpdates b updates).orders oid = some o := by
  induction updates with
  | nil => intro b oid o ho ht; exact ho
  | cons u rest ih =>
    intro b oid o ho ht
    exact ih _ _ _ (updatePrice_preserves b u.1 u.2 oid o ho ht) ht

/-- A pending `stop_limit` buy whose stop and limit prices would trigger a
plain stop or limit order under the updates below. -/
def cexOrder10 : Order :=
  { order_id := 1, symbol := "AAPL", side := OrderSide.buy,
    order_type := OrderType.stopLimit, quantity := 100, price := some 10,
    stop_price := some 10, status := OrderStatus.pending,
    filled_quantity := 0, filled_price := none, created_date := 0 }

/-- Fresh broker holding only the pending `stop_limit` order. -/
def cexBroker10 : Broker :=
  { freshBroker with orders := [cexOrder10], nextId := 2 }

/-- Witness for C10: price updates to 5 (≤ limit 10) and then 20 (≥ stop
10) — each of which would fire a plain limit or stop order — leave the
`stop_limit` order exactly as stored. -/
theorem claim10_witness :
    findOrder (applyUpdates cexBroker10 [("AAPL", 5), ("AAPL", 20)]).orders 1 =
      some cexOrder10 :=
  claim10 [("AAPL", 5), ("AAPL", 20)] cexBroker10 1 cexOrder10 (by rfl) rfl

end Trading

namespace Trading

/-- Witness for C9's amended characterization: instantiated at second
40000 of the day (11:06:40, inside the morning session). -/
theorem claim9_witness :
    isMarketOpen defaultSchedulerCfg 40000 = true ↔
      ((defaultSchedulerCfg.market_open ≤ 40000 ∧
        40000 ≤ defaultSchedulerCfg.market_close) ∧
        ¬(defaultSchedulerCfg.lunch_break_start ≤ 40000 ∧
          40000 ≤ defaultSchedulerCfg.lunch_break_end)) :=
  claim9 defaultSchedulerCfg 40000

end Trading
